import Mathlib

/-!
Verification of the PyXRF file-I/O view layer (`pyxrf/view/fileio.enaml`)
and the batch-mode entry point used by `examples/Batch_mode_fit.ipynb`.

The enaml view is glue code: button click handlers that read and write
attributes of external model objects (`io_model`, `param_model`,
`plot_model`, `setting_model`, `fit_model`) and widget state, and that
pop up modal dialogs.  We embed this shallowly:

* the mutable attributes the handlers touch become fields of Lean
  structures (`IOModel`, `PlotModel`, `SettingModel`, `FitModel`,
  `AppState`);
* each click handler becomes a pure function `AppState → AppState × List Event`,
  where `Event` records the externally visible calls the handler makes
  (modal dialogs, window-title updates, plotting calls);
* external operations whose implementation is outside the given sources
  (the custom `io_model.file_name` setter, which loads an HDF5 file, and
  `io_model.load_data_runid()`, which reads from the database) are
  parameters of the handlers: an oracle returning `Option ExternalLoad`,
  where `none` models the operation raising an exception and
  `some out` models success with externally produced data `out`.
-/

namespace PyXRF

/-- One data set per detector channel.  Only `plot_index` matters for the
handlers in this file (`0` = hidden, nonzero = shown); the raw spectral
data never influences control flow, so it is represented by a bare tag. -/
structure DataSet where
  plot_index : Int
  deriving Repr, DecidableEq

/-- The attributes of the external `io_model` object that the handlers of
`fileio.enaml` read or write. -/
structure IOModel where
  working_directory : String
  file_name : String
  data_ready : Bool
  load_each_channel : Bool
  runid : Int
  file_overwrite_existing : Bool
  file_channel_list : List String
  data_sets : String → DataSet
  incident_energy_available : Bool
  scan_metadata_available : Bool
  mask_opt : Int
  mask_name : String
  p1_row : Int
  p1_col : Int
  p2_row : Int
  p2_col : Int

/-- Fitting-parameter values are opaque to this layer: the handlers only
copy `param_model.param_new` around, never inspect it. -/
abbrev Params := Nat

/-- The attributes of the external `param_model` object used here. -/
structure ParamModel where
  param_new : Params

/-- The attributes of the external `plot_model` object used here. -/
structure PlotModel where
  parameters : Params
  data_sets : String → DataSet
  plot_exp_opt : Bool
  show_exp_opt : Bool

/-- The attributes of the external `setting_model` object used here. -/
structure SettingModel where
  parameters : Params
  data_sets : String → DataSet

/-- The attributes of the external `fit_model` object used here.
`fit_img` is a Python dict of fit results; the handlers only ever clear it
(`fit_model.fit_img = {}`), so an association list suffices. -/
structure FitModel where
  data_sets : String → DataSet
  fit_img : List (String × Int)

/-- Externally visible calls a handler makes: modal dialogs, window-title
updates and plotting.  `criticalDialog` is the `critical(...)` message box,
`warningDialog` the `warning(...)` box, `questionDialog` the
`question(...)` box; `titleClear` is `io_model.window_title_clear()`,
`titleSetFileName` / `titleSetRunId` the corresponding title setters;
`plotMultiExp` is `plot_model.plot_multi_exp_data()` and `applyMask` is
`io_model.apply_mask()`. -/
inductive Event where
  | criticalDialog
  | warningDialog
  | questionDialog
  | titleClear
  | titleSetFileName (name : String)
  | titleSetRunId (id : Int)
  | plotMultiExp
  | applyMask
  deriving Repr, DecidableEq

/-- The widget and model state a click handler of the `FileView` dock item
can touch. -/
structure AppState where
  io_model : IOModel
  param : ParamModel
  plot : PlotModel
  setting : SettingModel
  fit : FitModel
  folder_btn_enabled : Bool
  files_load_text : String
  run_num_value : Int
  cb_overwrite_checked : Bool

/-- The data produced by a successful external load (the `file_name`
setter of `io_model`, defined in `pyxrf/model/fileio.py` outside the given
sources, or `io_model.load_data_runid()`).  A successful load replaces the
channel list and the per-channel data sets and determines metadata
availability; it does not touch the working directory, the run id or the
mask fields, which the loaders only read. -/
structure ExternalLoad where
  data_sets : String → DataSet
  file_channel_list : List String
  incident_energy_available : Bool
  scan_metadata_available : Bool

/-- Apply the result of a successful load to `io_model`; by the semantics
of the Python attribute assignment `io_model.file_name = f_name`, after a
successful assignment the attribute holds the assigned name. -/
def IOModel.withLoad (io_model : IOModel) (name : String) (out : ExternalLoad) : IOModel :=
  { io_model with
    file_name := name
    data_sets := out.data_sets
    file_channel_list := out.file_channel_list
    incident_energy_available := out.incident_energy_available
    scan_metadata_available := out.scan_metadata_available }

/-- Posix semantics of `os.path.split`, as in CPython's `posixpath.split`:
split at the final slash; the head keeps no trailing slashes unless it
consists only of slashes. -/
def osPathSplit (p : String) : String × String :=
  let rcs := p.toList.reverse
  let tail := (rcs.takeWhile (fun c => c ≠ '/')).reverse
  let head := (rcs.dropWhile (fun c => c ≠ '/')).reverse
  let head :=
    if head.isEmpty ∨ head.all (fun c => c = '/') then head
    else (head.reverse.dropWhile (fun c => c = '/')).reverse
  (String.mk head, String.mk tail)

example : osPathSplit "/Users/Li/data/2468.h5" = ("/Users/Li/data", "2468.h5") := by decide
example : osPathSplit "2468.h5" = ("", "2468.h5") := by decide
example : osPathSplit "/a.h5" = ("/", "a.h5") := by decide

/-- An oracle for the custom `io_model.file_name` setter: given the
current working directory and the assigned file name it either raises
(`none`, e.g. wrong file format) or yields the loaded data. -/
abbrev FileLoader := String → String → Option ExternalLoad

/-- An oracle for `io_model.load_data_runid()`: given the run id it either
raises (`none`, e.g. database read failure) or yields the loaded data. -/
abbrev DbLoader := Int → Option ExternalLoad

/-- The `clicked` handler of the `files_btn` ("Load Data File") push
button, lines 73–115 of `fileio.enaml`.  `paths` is the list of paths
returned by the open-file dialog; an empty list means the dialog was
cancelled and the handler body is skipped. -/
def filesBtnClicked (loader : FileLoader) (paths : List String) (s : AppState) :
    AppState × List Event :=
  match paths with
  | [] => (s, [])
  | p :: _ =>
    let io_model₀ := { s.io_model with data_ready := false, file_name := "temp" }
    let f_dir := (osPathSplit p).1
    let f_name := (osPathSplit p).2
    let io_model₁ := { io_model₀ with working_directory := f_dir }
    match loader f_dir f_name with
    | none =>
        ({ s with io_model := io_model₁ }, [Event.criticalDialog, Event.titleClear])
    | some out =>
        let io_model₂ := io_model₁.withLoad f_name out
        ({ s with
            io_model := io_model₂
            files_load_text := io_model₂.file_name ++ " is loaded."
            folder_btn_enabled := false
            plot := { s.plot with parameters := s.param.param_new }
            setting := { s.setting with
                          parameters := s.param.param_new
                          data_sets := io_model₂.data_sets }
            fit := { s.fit with data_sets := io_model₂.data_sets, fit_img := [] } },
         Event.titleSetFileName f_name ::
           (if io_model₂.incident_energy_available then [] else [Event.warningDialog]))

/-- Whether a click of "Load Data File" with dialog result `paths` makes
the tried assignment `io_model.file_name = f_name` raise. -/
def filesBtnRaises (loader : FileLoader) (paths : List String) : Bool :=
  match paths with
  | [] => false
  | p :: _ => (loader (osPathSplit p).1 (osPathSplit p).2).isNone

/-- Whether a click of "Load Data File" with dialog result `paths` reaches
the success (`else`) branch. -/
def filesBtnSucceeds (loader : FileLoader) (paths : List String) : Bool :=
  match paths with
  | [] => false
  | p :: _ => (loader (osPathSplit p).1 (osPathSplit p).2).isSome

/-- The `clicked` handler of the `load_btn` ("Load Data from Database")
push button, lines 154–191 of `fileio.enaml`. -/
def loadBtnClicked (db : DbLoader) (s : AppState) : AppState × List Event :=
  let io_model₁ := { s.io_model with runid := s.run_num_value, data_ready := false }
  match db io_model₁.runid with
  | none =>
      ({ s with io_model := io_model₁, run_num_value := -1 },
       [Event.criticalDialog, Event.titleClear])
  | some out =>
      let io_model₂ := { io_model₁ with
                    data_sets := out.data_sets
                    file_channel_list := out.file_channel_list
                    incident_energy_available := out.incident_energy_available
                    scan_metadata_available := out.scan_metadata_available }
      ({ s with
          io_model := io_model₂
          files_load_text := "Scan #" ++ toString io_model₂.runid ++ " from the database."
          plot := { s.plot with plot_exp_opt := false, parameters := s.param.param_new }
          folder_btn_enabled := false
          setting := { s.setting with
                        parameters := s.param.param_new
                        data_sets := io_model₂.data_sets }
          fit := { s.fit with data_sets := io_model₂.data_sets, fit_img := [] }
          run_num_value := -1 },
       [Event.titleSetRunId io_model₂.runid])

/-- Whether a click of "Load Data from Database" makes
`io_model.load_data_runid()` raise. -/
def loadBtnRaises (db : DbLoader) (s : AppState) : Bool :=
  (db s.run_num_value).isNone

/-- Pointwise update of the per-channel data-set map, modelling the
in-place mutation `io_model.data_sets[loop_item].plot_index = v`. -/
def setPlotIndex (ds : String → DataSet) (item : String) (v : Int) :
    String → DataSet :=
  fun k => if k = item then { ds k with plot_index := v } else ds k

/-- The `clicked` handler of the per-channel `rb_1` ("HIDE") radio button,
lines 237–250 of `fileio.enaml`: set the channel's `plot_index` to `0`,
push the data sets to the plot model, replot, and hide the experimental
plot when no channel is left shown. -/
def hideClicked (item : String) (s : AppState) : AppState × List Event :=
  let ds := setPlotIndex s.io_model.data_sets item 0
  let io_model₁ := { s.io_model with data_sets := ds }
  let plot₁ := { s.plot with data_sets := ds }
  let n_plots : Nat :=
    (io_model₁.file_channel_list.filter (fun v => (io_model₁.data_sets v).plot_index ≠ 0)).length
  let plot₂ := if n_plots = 0 then { plot₁ with show_exp_opt := false } else plot₁
  ({ s with io_model := io_model₁, plot := plot₂ }, [Event.plotMultiExp])

/-- The `clicked` handler of the per-channel `rb_2` ("SHOW") radio button,
lines 254–258 of `fileio.enaml`. -/
def showClicked (item : String) (s : AppState) : AppState × List Event :=
  let ds := setPlotIndex s.io_model.data_sets item 1
  ({ s with
      io_model := { s.io_model with data_sets := ds }
      plot := { s.plot with data_sets := ds, show_exp_opt := true } },
   [Event.plotMultiExp])

/-- The `checked ::` observer of the `cb_file_overwrite_existing` checkbox
("Overwrite Existing Files"), lines 197–205 of `fileio.enaml`.  The
bidirectional binding `checked := io_model.file_overwrite_existing` keeps
the two in sync, so when the observer runs both already hold the new
value `newChecked`; `answer` is the text of the button the user presses
in the confirmation dialog ("Yes" or "No"). -/
def overwriteCheckedChanged (answer : String) (newChecked : Bool) (s : AppState) :
    AppState × List Event :=
  let s₀ := { s with
              cb_overwrite_checked := newChecked
              io_model := { s.io_model with file_overwrite_existing := newChecked } }
  if newChecked then
    if answer = "No" then
      ({ s₀ with
          cb_overwrite_checked := false
          io_model := { s₀.io_model with file_overwrite_existing := false } },
       [Event.questionDialog])
    else (s₀, [Event.questionDialog])
  else (s₀, [])

/-! ### The mask window (`MaskView`, lines 260–357 of `fileio.enaml`) -/

/-- The `checked` expression of the `rb_pos` radio button
("Define mask region based on positions"): `io_model.mask_opt==0`. -/
def rbPosChecked (io_model : IOModel) : Bool := io_model.mask_opt = 0

/-- The `checked` expression of the `rb_file` radio button
("Load mask from a file"): `io_model.mask_opt==0`. -/
def rbFileChecked (io_model : IOModel) : Bool := io_model.mask_opt = 0

/-- The `checked` expression of the `rb_nomask` radio button
("Do not Apply Mask"): `io_model.mask_opt==0`. -/
def rbNomaskChecked (io_model : IOModel) : Bool := io_model.mask_opt = 0

/-- How many of the three mask-mode radio buttons' `checked` expressions
evaluate to true for a given `mask_opt` value. -/
def maskCheckedCount (opt : Int) : Nat :=
  let io_model : IOModel :=
    { working_directory := "", file_name := "", data_ready := false
      load_each_channel := false, runid := -1, file_overwrite_existing := false
      file_channel_list := [], data_sets := fun _ => ⟨0⟩
      incident_energy_available := false, scan_metadata_available := false
      mask_opt := opt, mask_name := "", p1_row := 0, p1_col := 0
      p2_row := 0, p2_col := 0 }
  (if rbPosChecked io_model then 1 else 0) + (if rbFileChecked io_model then 1 else 0) +
    (if rbNomaskChecked io_model then 1 else 0)

/-- The `clicked` handler of `rb_pos`: if the button is now checked, set
`mask_opt` to `1`. -/
def rbPosClicked (checked : Bool) (io_model : IOModel) : IOModel :=
  if checked then { io_model with mask_opt := 1 } else io_model

/-- The `clicked` handler of `rb_file`: if the button is now checked, set
`mask_opt` to `2`. -/
def rbFileClicked (checked : Bool) (io_model : IOModel) : IOModel :=
  if checked then { io_model with mask_opt := 2 } else io_model

/-- The `clicked` handler of `rb_nomask`: if the button is now checked,
set `mask_opt` to `0`. -/
def rbNomaskClicked (checked : Bool) (io_model : IOModel) : IOModel :=
  if checked then { io_model with mask_opt := 0 } else io_model

/-- The path separator `sep_v` imported from `pyxrf.model.fileio` (not
among the given sources); on posix systems it is `"/"`. -/
def sepV : String := "/"

/-- The `clicked` handler of the mask window's `mask_btn` ("Load") push
button, lines 299–303: take the base name of the first selected path as
the mask name. -/
def maskBtnClicked (paths : List String) (io_model : IOModel) : IOModel × List Event :=
  match paths with
  | [] => (io_model, [])
  | _ =>
      ({ io_model with
          mask_name := ((paths.map fun item => (item.splitOn sepV).getLastD "").headD "") },
       [])

/-- The `clicked` handler of the mask window's `save_btn` ("Save") push
button, lines 355–357: `io_model.apply_mask()` is an external `io_model`
method (defined outside the given sources), modelled as an effect event;
the window is then closed. -/
def saveBtnClicked (io_model : IOModel) : IOModel × List Event :=
  (io_model, [Event.applyMask])

/-- The bidirectional binding `value := io_model.p1_row` of the mask
window's `r1f` integer field: a user edit writes the field's value to the
model. -/
def setP1Row (v : Int) (io_model : IOModel) : IOModel := { io_model with p1_row := v }

/-- The binding `value := io_model.p1_col` of the `c1f` field. -/
def setP1Col (v : Int) (io_model : IOModel) : IOModel := { io_model with p1_col := v }

/-- The binding `value := io_model.p2_row` of the `r2f` field. -/
def setP2Row (v : Int) (io_model : IOModel) : IOModel := { io_model with p2_row := v }

/-- The binding `value := io_model.p2_col` of the `c2f` field. -/
def setP2Col (v : Int) (io_model : IOModel) : IOModel := { io_model with p2_col := v }

/-- The three-way mask-mode invariant: `mask_opt ∈ {0, 1, 2}`. -/
def maskOptValid (io_model : IOModel) : Prop :=
  io_model.mask_opt = 0 ∨ io_model.mask_opt = 1 ∨ io_model.mask_opt = 2

instance (io_model : IOModel) : Decidable (maskOptValid io_model) := by
  unfold maskOptValid; infer_instance

/-! ### The batch entry point (`examples/Batch_mode_fit.ipynb`) -/

/-- Modelled from the spec: `fit_pixel_data_and_save` is imported from
`pyxrf.model.command_tools`, which is not among the given sources; only
its callers in `Batch_mode_fit.ipynb` are.  Per the spec it has signature
`fit_pixel_data_and_save(working_dir, file_name, param_file_name,
fit_channel_each=False, param_channel_list=None, save_txt=False,
save_tiff=True, incident_energy=None)`.  This structure records one
argument assignment; the default field values are the spec's defaults. -/
structure FitPixelArgs where
  working_dir : String
  file_name : String
  param_file_name : String
  fit_channel_each : Bool := false
  param_channel_list : Option (List String) := none
  save_txt : Bool := false
  save_tiff : Bool := true
  incident_energy : Option Int := none
  deriving Repr, DecidableEq

/-- Modelled from the spec: the observable outcome of one call of
`fit_pixel_data_and_save` — which parameter files were used for fitting
(the named summed-spectrum file, or the per-channel list), whether the
incident energy was overridden, and which output artifacts were written. -/
structure FitRun where
  fitted_param_files : List String
  energy_override : Option Int
  wrote_txt : Bool
  wrote_tiff : Bool
  deriving Repr, DecidableEq

/-- Modelled from the spec: `fit_pixel_data_and_save` "fits summed or
per-channel spectra for a scan file using a named JSON parameter file,
optionally overriding incident energy, and optionally persisting
text/image outputs" — the summed spectrum with `param_file_name` when
`fit_channel_each` is false, each channel with its file from
`param_channel_list` when true; txt output iff `save_txt`, tiff output
iff `save_tiff`; the incident energy used is the override when given. -/
def fit_pixel_data_and_save (a : FitPixelArgs) : FitRun :=
  { fitted_param_files :=
      if a.fit_channel_each then a.param_channel_list.getD [] else [a.param_file_name]
    energy_override := a.incident_energy
    wrote_txt := a.save_txt
    wrote_tiff := a.save_tiff }

/-- A call of `fit_pixel_data_and_save` with only the three required
arguments, every optional argument left at its default. -/
def fitPixelDefaultCall (wd fn pf : String) : FitPixelArgs :=
  { working_dir := wd, file_name := fn, param_file_name := pf }

/-! ### Concrete fixtures (used by the witness theorems) -/

/-- A concrete per-channel data-set map: every channel shown. -/
def dsTest : String → DataSet := fun _ => ⟨1⟩

/-- A concrete `io_model` state. -/
def ioTest : IOModel :=
  { working_directory := "/data", file_name := "old.h5", data_ready := true
    load_each_channel := false, runid := -1, file_overwrite_existing := false
    file_channel_list := ["sum", "det1"], data_sets := dsTest
    incident_energy_available := true, scan_metadata_available := true
    mask_opt := 0, mask_name := "", p1_row := 0, p1_col := 0
    p2_row := 0, p2_col := 0 }

/-- A concrete view state before a click. -/
def stateTest : AppState :=
  { io_model := ioTest, param := ⟨7⟩
    plot := { parameters := 0, data_sets := dsTest, plot_exp_opt := true
              show_exp_opt := true }
    setting := { parameters := 0, data_sets := dsTest }
    fit := { data_sets := dsTest, fit_img := [("Fe_K", 3)] }
    folder_btn_enabled := true, files_load_text := "No data is loaded."
    run_num_value := 100, cb_overwrite_checked := false }

/-- A concrete successful load result. -/
def loadTest : ExternalLoad :=
  { data_sets := fun _ => ⟨1⟩, file_channel_list := ["sum"]
    incident_energy_available := true, scan_metadata_available := true }

/-- A file loader that always succeeds, yielding `loadTest`. -/
def loaderOk : FileLoader := fun _ _ => some loadTest

/-- A file loader that always raises (e.g. wrong file format). -/
def loaderBad : FileLoader := fun _ _ => none

/-- A database loader that always succeeds, yielding `loadTest`. -/
def dbOk : DbLoader := fun _ => some loadTest

/-- A database loader that always raises (database read failure). -/
def dbBad : DbLoader := fun _ => none

end PyXRF

namespace PyXRF

/-! ## Claim theorems -/

/-- C1: In the "Load Data File" handler, `plot_model.parameters`,
`setting_model.parameters`, `setting_model.data_sets`,
`fit_model.data_sets` and `fit_model.fit_img` are assigned only in the
success branch, after `io_model.file_name = f_name` completes without
raising; when the handler does not reach that branch (the assignment
raises, or the dialog is cancelled), none of those dependent-model fields
are modified. -/
theorem filesBtn_dependent_models_only_on_success
    (loader : FileLoader) (paths : List String) (s : AppState)
    (h : filesBtnSucceeds loader paths = false) :
    (filesBtnClicked loader paths s).1.plot.parameters = s.plot.parameters ∧
    (filesBtnClicked loader paths s).1.setting.parameters = s.setting.parameters ∧
    (filesBtnClicked loader paths s).1.setting.data_sets = s.setting.data_sets ∧
    (filesBtnClicked loader paths s).1.fit.data_sets = s.fit.data_sets ∧
    (filesBtnClicked loader paths s).1.fit.fit_img = s.fit.fit_img := by
  cases paths with
  | nil => exact ⟨rfl, rfl, rfl, rfl, rfl⟩
  | cons p rest =>
      cases hl : loader (osPathSplit p).1 (osPathSplit p).2 with
      | none => simp [filesBtnClicked, hl]
      | some out => simp [filesBtnSucceeds, hl] at h

/-- C1 witness: a concrete click on `d/a.h5` whose `file_name` assignment
raises leaves the five dependent-model fields of the concrete state
unchanged. -/
theorem filesBtn_dependent_models_only_on_success_witness :
    filesBtnSucceeds loaderBad ["d/a.h5"] = false ∧
    ((filesBtnClicked loaderBad ["d/a.h5"] stateTest).1.plot.parameters =
        stateTest.plot.parameters ∧
      (filesBtnClicked loaderBad ["d/a.h5"] stateTest).1.setting.parameters =
        stateTest.setting.parameters ∧
      (filesBtnClicked loaderBad ["d/a.h5"] stateTest).1.setting.data_sets =
        stateTest.setting.data_sets ∧
      (filesBtnClicked loaderBad ["d/a.h5"] stateTest).1.fit.data_sets =
        stateTest.fit.data_sets ∧
      (filesBtnClicked loaderBad ["d/a.h5"] stateTest).1.fit.fit_img =
        stateTest.fit.fit_img) :=
  ⟨rfl, filesBtn_dependent_models_only_on_success loaderBad ["d/a.h5"] stateTest rfl⟩

/-- C2: For every click of "Load Data File" or "Load Data from Database",
the modal critical dialog is shown if and only if the load operation
(the `io_model.file_name` assignment, resp. `io_model.load_data_runid()`)
raises, and exactly in that case `io_model.window_title_clear()` is
called. -/
theorem load_failure_dialog_and_title_clear
    (loader : FileLoader) (paths : List String) (db : DbLoader) (s t : AppState) :
    ((Event.criticalDialog ∈ (filesBtnClicked loader paths s).2) ↔
        filesBtnRaises loader paths = true) ∧
    ((Event.titleClear ∈ (filesBtnClicked loader paths s).2) ↔
        filesBtnRaises loader paths = true) ∧
    ((Event.criticalDialog ∈ (loadBtnClicked db t).2) ↔
        loadBtnRaises db t = true) ∧
    ((Event.titleClear ∈ (loadBtnClicked db t).2) ↔
        loadBtnRaises db t = true) := by
  refine ⟨?_, ?_, ?_, ?_⟩ <;>
    first
      | (cases paths with
          | nil => simp [filesBtnClicked, filesBtnRaises]
          | cons p rest =>
              cases hl : loader (osPathSplit p).1 (osPathSplit p).2 with
              | none => simp [filesBtnClicked, filesBtnRaises, hl]
              | some out =>
                  cases hie : out.incident_energy_available <;>
                    simp [filesBtnClicked, filesBtnRaises, hl, hie])
      | (cases hd : db t.run_num_value <;>
          simp [loadBtnClicked, loadBtnRaises, hd])

/-- C3: After every click of "Load Data from Database" the run-ID field
is reset to the sentinel `-1`, whether `load_data_runid()` succeeded or
raised. -/
theorem run_num_resets_to_sentinel (db : DbLoader) (s : AppState) :
    (loadBtnClicked db s).1.run_num_value = -1 := by
  cases hd : db s.run_num_value <;> simp [loadBtnClicked, hd]

/-- C4 counterexample: the claim "for every value of `mask_opt` exactly
one of the three mask-mode radio buttons' `checked` expressions is true"
fails on the code, because all three expressions read `mask_opt==0`
(lines 280, 286 and 292 of `fileio.enaml`): at `mask_opt = 0` all three
are true, and at `mask_opt = 1` or `2` none is.  Moreover `rb_pos`'s
expression is true at the value `0` while its click handler writes `1`. -/
theorem mask_checked_expressions_all_test_zero :
    maskCheckedCount 0 = 3 ∧ maskCheckedCount 1 = 0 ∧ maskCheckedCount 2 = 0 ∧
    rbPosChecked { ioTest with mask_opt := 0 } = true ∧
    (rbPosClicked true { ioTest with mask_opt := 0 }).mask_opt = 1 := by
  exact ⟨by decide, by decide, by decide, by decide, by decide⟩

/-- C5: every assignment the mask window's radio-button click handlers
make to `io_model.mask_opt` writes a value in `{0, 1, 2}`, and every
other handler of the mask view (mask-file "Load", "Save", and the four
position fields) leaves `mask_opt` unchanged, so the invariant
`mask_opt ∈ {0, 1, 2}` is preserved by every handler of the mask view. -/
theorem mask_view_handlers_preserve_mask_opt
    (checked : Bool) (v : Int) (paths : List String) (io_model : IOModel)
    (h : maskOptValid io_model) :
    maskOptValid (rbPosClicked checked io_model) ∧
    maskOptValid (rbFileClicked checked io_model) ∧
    maskOptValid (rbNomaskClicked checked io_model) ∧
    maskOptValid (maskBtnClicked paths io_model).1 ∧
    maskOptValid (saveBtnClicked io_model).1 ∧
    maskOptValid (setP1Row v io_model) ∧
    maskOptValid (setP1Col v io_model) ∧
    maskOptValid (setP2Row v io_model) ∧
    maskOptValid (setP2Col v io_model) := by
  cases checked <;> cases paths <;>
    simp_all [maskOptValid, rbPosClicked, rbFileClicked, rbNomaskClicked,
      maskBtnClicked, saveBtnClicked, setP1Row, setP1Col, setP2Row, setP2Col]

/-- C5 witness: the invariant holds at a concrete state with
`mask_opt = 0` and is preserved by every handler there. -/
theorem mask_view_handlers_preserve_mask_opt_witness :
    maskOptValid ioTest ∧
    (maskOptValid (rbPosClicked true ioTest) ∧
      maskOptValid (rbFileClicked true ioTest) ∧
      maskOptValid (rbNomaskClicked true ioTest) ∧
      maskOptValid (maskBtnClicked ["d/m.txt"] ioTest).1 ∧
      maskOptValid (saveBtnClicked ioTest).1 ∧
      maskOptValid (setP1Row 5 ioTest) ∧
      maskOptValid (setP1Col 5 ioTest) ∧
      maskOptValid (setP2Row 5 ioTest) ∧
      maskOptValid (setP2Col 5 ioTest)) :=
  ⟨by decide, mask_view_handlers_preserve_mask_opt true 5 ["d/m.txt"] ioTest (by decide)⟩

/-- Hiding leaves no shown channel exactly when every channel's
`plot_index` is `0`: the loop in the HIDE handler counts the channels
with truthy `plot_index`. -/
lemma length_filter_plot_index_eq_zero_iff (l : List String) (ds : String → DataSet) :
    (l.filter fun v => (ds v).plot_index ≠ 0).length = 0 ↔
      ∀ c ∈ l, (ds c).plot_index = 0 := by
  rw [List.length_eq_zero, List.filter_eq_nil_iff]
  simp

/-- C6: clicking HIDE sets the channel's `plot_index` to `0` and clicking
SHOW sets it to `1`; after a HIDE click, `plot_model.show_exp_opt` is set
to `False` exactly when every channel of `io_model.file_channel_list` has
`plot_index` equal to `0`, and is left unchanged otherwise. -/
theorem plot_index_controls_visibility (item : String) (s : AppState) :
    ((hideClicked item s).1.io_model.data_sets item).plot_index = 0 ∧
    ((showClicked item s).1.io_model.data_sets item).plot_index = 1 ∧
    (hideClicked item s).1.plot.show_exp_opt =
      (if ∀ c ∈ (hideClicked item s).1.io_model.file_channel_list,
            (((hideClicked item s).1.io_model.data_sets) c).plot_index = 0
        then false else s.plot.show_exp_opt) := by
  refine ⟨by simp [hideClicked, setPlotIndex], by simp [showClicked, setPlotIndex], ?_⟩
  simp only [hideClicked]
  by_cases hc : ∀ c ∈ s.io_model.file_channel_list,
      ((setPlotIndex s.io_model.data_sets item 0) c).plot_index = 0
  · rw [if_pos hc, if_pos ((length_filter_plot_index_eq_zero_iff _ _).mpr hc)]
  · rw [if_neg hc, if_neg
      (fun hz => hc ((length_filter_plot_index_eq_zero_iff _ _).mp hz))]

/-- C7: the batch entry point's optional arguments default to
`fit_channel_each=False`, `param_channel_list=None`, `save_txt=False`,
`save_tiff=True`, `incident_energy=None`; with the defaults it fits the
summed spectrum (the single named parameter file), writes no txt output
but writes tiff output and overrides no incident energy, and when
`incident_energy` is given it overrides the incident energy used. -/
theorem fit_pixel_data_and_save_defaults (wd fn pf : String) (e : Int) :
    (fitPixelDefaultCall wd fn pf).fit_channel_each = false ∧
    (fitPixelDefaultCall wd fn pf).param_channel_list = none ∧
    (fitPixelDefaultCall wd fn pf).save_txt = false ∧
    (fitPixelDefaultCall wd fn pf).save_tiff = true ∧
    (fitPixelDefaultCall wd fn pf).incident_energy = none ∧
    fit_pixel_data_and_save (fitPixelDefaultCall wd fn pf) =
      { fitted_param_files := [pf], energy_override := none
        wrote_txt := false, wrote_tiff := true } ∧
    (fit_pixel_data_and_save
        { fitPixelDefaultCall wd fn pf with incident_energy := some e }).energy_override =
      some e :=
  ⟨rfl, rfl, rfl, rfl, rfl, rfl, rfl⟩

/-- C8: when the open-file dialog returns a non-empty selection, only the
first path matters: `io_model.working_directory` becomes its directory
part, on success `io_model.file_name` becomes its base name, and the
remaining selected paths have no effect on the handler's result at all. -/
theorem filesBtn_loads_first_path_only
    (loader : FileLoader) (p : String) (rest : List String) (s : AppState) :
    (filesBtnClicked loader (p :: rest) s).1.io_model.working_directory = (osPathSplit p).1 ∧
    (filesBtnSucceeds loader (p :: rest) = true →
      (filesBtnClicked loader (p :: rest) s).1.io_model.file_name = (osPathSplit p).2) ∧
    ∀ rest', filesBtnClicked loader (p :: rest) s = filesBtnClicked loader (p :: rest') s := by
  refine ⟨?_, ?_, fun _ => rfl⟩
  · cases hl : loader (osPathSplit p).1 (osPathSplit p).2 <;>
      simp [filesBtnClicked, IOModel.withLoad, hl]
  · intro h
    cases hl : loader (osPathSplit p).1 (osPathSplit p).2 with
    | none => simp [filesBtnSucceeds, hl] at h
    | some out => simp [filesBtnClicked, IOModel.withLoad, hl]

/-- C8 witness: a concrete successful two-file selection loads the first
file's base name. -/
theorem filesBtn_loads_first_path_only_witness :
    filesBtnSucceeds loaderOk ["d/a.h5", "d/b.h5"] = true ∧
    (filesBtnClicked loaderOk ["d/a.h5", "d/b.h5"] stateTest).1.io_model.file_name =
      (osPathSplit "d/a.h5").2 :=
  ⟨rfl, (filesBtn_loads_first_path_only loaderOk "d/a.h5" ["d/b.h5"] stateTest).2.1 rfl⟩

/-- C9: after every successful load — from a file or from the database —
`fit_model.fit_img` is reset to the empty dict and the "Working
Directory" button is disabled. -/
theorem successful_load_clears_fit_img_disables_folder_btn
    (loader : FileLoader) (paths : List String) (db : DbLoader) (s t : AppState)
    (h₁ : filesBtnSucceeds loader paths = true) (h₂ : loadBtnRaises db t = false) :
    (filesBtnClicked loader paths s).1.fit.fit_img = [] ∧
    (filesBtnClicked loader paths s).1.folder_btn_enabled = false ∧
    (loadBtnClicked db t).1.fit.fit_img = [] ∧
    (loadBtnClicked db t).1.folder_btn_enabled = false := by
  have hfile : (filesBtnClicked loader paths s).1.fit.fit_img = [] ∧
      (filesBtnClicked loader paths s).1.folder_btn_enabled = false := by
    cases paths with
    | nil => simp [filesBtnSucceeds] at h₁
    | cons p rest =>
        cases hl : loader (osPathSplit p).1 (osPathSplit p).2 with
        | none => simp [filesBtnSucceeds, hl] at h₁
        | some out =>
            exact ⟨by simp [filesBtnClicked, hl], by simp [filesBtnClicked, hl]⟩
  have hdb : (loadBtnClicked db t).1.fit.fit_img = [] ∧
      (loadBtnClicked db t).1.folder_btn_enabled = false := by
    cases hd : db t.run_num_value with
    | none => simp [loadBtnRaises, hd] at h₂
    | some out =>
        exact ⟨by simp [loadBtnClicked, hd], by simp [loadBtnClicked, hd]⟩
  exact ⟨hfile.1, hfile.2, hdb.1, hdb.2⟩

/-- C9 witness: concrete successful loads clear `fit_img` (which held an
old entry) and disable the working-directory button. -/
theorem successful_load_clears_fit_img_disables_folder_btn_witness :
    filesBtnSucceeds loaderOk ["d/a.h5"] = true ∧
    loadBtnRaises dbOk stateTest = false ∧
    ((filesBtnClicked loaderOk ["d/a.h5"] stateTest).1.fit.fit_img = [] ∧
      (filesBtnClicked loaderOk ["d/a.h5"] stateTest).1.folder_btn_enabled = false ∧
      (loadBtnClicked dbOk stateTest).1.fit.fit_img = [] ∧
      (loadBtnClicked dbOk stateTest).1.folder_btn_enabled = false) :=
  ⟨rfl, rfl,
    successful_load_clears_fit_img_disables_folder_btn loaderOk ["d/a.h5"] dbOk
      stateTest stateTest rfl rfl⟩

/-- C10: whenever the "Overwrite Existing Files" checkbox becomes
checked, the confirmation question dialog is shown, and if the user's
answer is "No" the checkbox — and the bound
`io_model.file_overwrite_existing` — is reset to `False`. -/
theorem overwrite_enable_requires_confirmation
    (answer : String) (newChecked : Bool) (s : AppState) :
    (newChecked = true →
      Event.questionDialog ∈ (overwriteCheckedChanged answer newChecked s).2) ∧
    (newChecked = true → answer = "No" →
      (overwriteCheckedChanged answer newChecked s).1.cb_overwrite_checked = false ∧
      (overwriteCheckedChanged answer newChecked s).1.io_model.file_overwrite_existing = false) := by
  constructor
  · intro hc
    subst hc
    by_cases ha : answer = "No" <;> simp [overwriteCheckedChanged, ha]
  · intro hc ha
    subst hc
    subst ha
    simp [overwriteCheckedChanged]

/-- C10 witness: at a concrete state, checking the box shows the dialog
and answering "No" resets the checkbox and the bound model flag. -/
theorem overwrite_enable_requires_confirmation_witness :
    Event.questionDialog ∈ (overwriteCheckedChanged "No" true stateTest).2 ∧
    (overwriteCheckedChanged "No" true stateTest).1.cb_overwrite_checked = false ∧
    (overwriteCheckedChanged "No" true stateTest).1.io_model.file_overwrite_existing = false :=
  ⟨(overwrite_enable_requires_confirmation "No" true stateTest).1 rfl,
    ((overwrite_enable_requires_confirmation "No" true stateTest).2 rfl rfl).1,
    ((overwrite_enable_requires_confirmation "No" true stateTest).2 rfl rfl).2⟩

end PyXRF
